import Mathlib

/-!
Verification of the sway-screenshot / sway-easyshot daemon core:
shared state, waybar status priority, recording lifecycle, dispatcher.
Definitions are shallow embeddings of the Go source; external processes,
the filesystem and the clock enter as explicit environment parameters.
-/

namespace SwayShot

/-- protocol.WaybarStatus: derived, read-only projection of State for the
status bar (shared by both repository variants). -/
structure WaybarStatus where
  Text : String
  Tooltip : String
  Class : String
  Alt : String
  deriving Repr, DecidableEq

/-- protocol.State: the snapshot carried inside a Response. -/
structure ProtocolState where
  Recording : Bool
  Paused : Bool
  RecordingFile : String
  OBSRecording : Bool
  OBSPaused : Bool
  deriving Repr, DecidableEq

/-- Go's fmt "%02d" applied to a nonnegative value. -/
def fmt02 (n : Nat) : String :=
  if n < 10 then "0" ++ toString n else toString n

end SwayShot

namespace SwayEasyshot

open SwayShot

/-- state.Icons of the sway-easyshot variant (src/unnamed/part_002). -/
structure Icons where
  Idle : String
  Recording : String
  Paused : String
  ObsRecording : String
  ObsPaused : String
  Countdown : String
  deriving Repr, DecidableEq

/-- state.DefaultIcons of the sway-easyshot variant. -/
def DefaultIcons : Icons :=
  { Idle := ""
    Recording := "󰑊"
    Paused := "󰏤"
    ObsRecording := "󰑊"
    ObsPaused := "󰏤"
    Countdown := "⏱" }

/-- state.State of the sway-easyshot variant; time.Time is modelled as
seconds (Nat), the zero Time as 0. -/
structure State where
  recording : Bool
  paused : Bool
  recordingFile : String
  recordingPID : Int
  recordingStartTime : Nat
  obsRecording : Bool
  obsPaused : Bool
  countdownRemaining : Int
  icons : Icons
  deriving Repr, DecidableEq

/-- state.NewState: zero values for every field, default icons. -/
def NewState : State :=
  { recording := false
    paused := false
    recordingFile := ""
    recordingPID := 0
    recordingStartTime := 0
    obsRecording := false
    obsPaused := false
    countdownRemaining := 0
    icons := DefaultIcons }

/-- State.SetRecording (sway-easyshot variant): also tracks the start
time — time.Now() when recording is set, the zero Time otherwise. -/
def State.SetRecording (s : State) (recording : Bool) (file : String)
    (pid : Int) (now : Nat) : State :=
  { s with
    recording := recording
    recordingFile := file
    recordingPID := pid
    recordingStartTime := if recording then now else 0 }

/-- State.SetOBSState. -/
def State.SetOBSState (s : State) (recording paused : Bool) : State :=
  { s with obsRecording := recording, obsPaused := paused }

/-- State.GetRecordingPID. -/
def State.GetRecordingPID (s : State) : Int := s.recordingPID

/-- State.SetPaused. -/
def State.SetPaused (s : State) (paused : Bool) : State :=
  { s with paused := paused }

/-- State.SetCountdown. -/
def State.SetCountdown (s : State) (seconds : Int) : State :=
  { s with countdownRemaining := seconds }

/-- State.ClearCountdown. -/
def State.ClearCountdown (s : State) : State :=
  { s with countdownRemaining := 0 }

/-- State.GetState. -/
def State.GetState (s : State) : ProtocolState :=
  { Recording := s.recording
    Paused := s.paused
    RecordingFile := s.recordingFile
    OBSRecording := s.obsRecording
    OBSPaused := s.obsPaused }

/-- State.SetIcons. -/
def State.SetIcons (s : State) (icons : Icons) : State :=
  { s with icons := icons }

/-- State.GetWaybarStatus (sway-easyshot variant): the if-chain of the
source, with time.Since(recordingStartTime) made explicit through `now`. -/
def State.GetWaybarStatus (s : State) (now : Nat) : WaybarStatus :=
  if s.countdownRemaining > 0 then
    { Text := s.icons.Countdown ++ " " ++ toString s.countdownRemaining
      Tooltip := "Starting in " ++ toString s.countdownRemaining ++ " seconds"
      Class := "countdown"
      Alt := "countdown" }
  else if s.recording then
    if s.paused then
      { Text := s.icons.Paused
        Tooltip := "Recording paused"
        Class := "paused"
        Alt := "paused" }
    else
      let elapsed := now - s.recordingStartTime
      let minutes := elapsed / 60
      let seconds := elapsed % 60
      { Text := s.icons.Recording ++ " " ++ fmt02 minutes ++ ":" ++ fmt02 seconds
        Tooltip := "Recording: " ++ s.recordingFile ++ " (" ++ fmt02 minutes ++
          ":" ++ fmt02 seconds ++ ")"
        Class := "recording"
        Alt := "recording" }
  else if s.obsRecording then
    if s.obsPaused then
      { Text := s.icons.ObsPaused
        Tooltip := "OBS recording paused"
        Class := "paused"
        Alt := "paused" }
    else
      { Text := s.icons.ObsRecording
        Tooltip := "OBS recording in progress"
        Class := "recording"
        Alt := "recording" }
  else
    { Text := s.icons.Idle
      Tooltip := "Ready for screenshot/recording"
      Class := "idle"
      Alt := "idle" }

/-- One mutating call on the shared state, as named by the spec's
priority property (setRecording / setOBS / setCountdown). -/
inductive StateOp where
  | setRecording (recording : Bool) (file : String) (pid : Int) (now : Nat)
  | setOBSState (recording : Bool) (paused : Bool)
  | setCountdown (seconds : Int)
  deriving Repr, DecidableEq

/-- Apply one call to the state. -/
def applyOp (s : State) : StateOp → State
  | .setRecording r f p n => s.SetRecording r f p n
  | .setOBSState r p => s.SetOBSState r p
  | .setCountdown n => s.SetCountdown n

/-- Run a sequence of calls from a starting state. -/
def runOps (ops : List StateOp) (s : State) : State :=
  ops.foldl applyOp s

/-- The four status conditions, in the spec's wording. -/
inductive StatusCond where
  | countdown
  | localRec
  | obsRec
  | idle
  deriving Repr, DecidableEq

/-- Whether a condition is active in a given state. -/
def condActive (s : State) : StatusCond → Bool
  | .countdown => decide (s.countdownRemaining > 0)
  | .localRec => s.recording
  | .obsRec => s.obsRecording
  | .idle => true

/-- The spec's priority order: countdown > local recording > OBS > idle. -/
def statusPriority : List StatusCond :=
  [.countdown, .localRec, .obsRec, .idle]

/-- The highest-priority active condition. -/
def highestActiveCond (s : State) : StatusCond :=
  (statusPriority.find? (condActive s)).getD .idle

/-- The status payload each condition displays (the per-branch payloads of
the source, indexed by condition). -/
def condStatus (s : State) (now : Nat) : StatusCond → WaybarStatus
  | .countdown =>
    { Text := s.icons.Countdown ++ " " ++ toString s.countdownRemaining
      Tooltip := "Starting in " ++ toString s.countdownRemaining ++ " seconds"
      Class := "countdown"
      Alt := "countdown" }
  | .localRec =>
    if s.paused then
      { Text := s.icons.Paused
        Tooltip := "Recording paused"
        Class := "paused"
        Alt := "paused" }
    else
      let elapsed := now - s.recordingStartTime
      let minutes := elapsed / 60
      let seconds := elapsed % 60
      { Text := s.icons.Recording ++ " " ++ fmt02 minutes ++ ":" ++ fmt02 seconds
        Tooltip := "Recording: " ++ s.recordingFile ++ " (" ++ fmt02 minutes ++
          ":" ++ fmt02 seconds ++ ")"
        Class := "recording"
        Alt := "recording" }
  | .obsRec =>
    if s.obsPaused then
      { Text := s.icons.ObsPaused
        Tooltip := "OBS recording paused"
        Class := "paused"
        Alt := "paused" }
    else
      { Text := s.icons.ObsRecording
        Tooltip := "OBS recording in progress"
        Class := "recording"
        Alt := "recording" }
  | .idle =>
    { Text := s.icons.Idle
      Tooltip := "Ready for screenshot/recording"
      Class := "idle"
      Alt := "idle" }

/-- Modelled from the spec: WaybarStatus is computed from State + Icons by
a pure priority function, countdown > local-recording(paused or active) >
obs-recording(paused or active) > idle. -/
def specWaybarStatus (s : State) (now : Nat) : WaybarStatus :=
  condStatus s now (highestActiveCond s)

/-- Environment of one startRecording invocation: the values produced by
GenerateRecordingBase, os.Getpid, os.Stat, os.WriteFile, the recorder
launch (ok carries cmd.Process.Pid) and the clock. -/
structure StartEnv where
  base0 : String
  pid : Int
  fileExists : String → Bool
  cacheWrite : Except String Unit
  recorderStart : Except String Int
  now : Nat

/-- The output-file choice of startRecording: (file, base) is
(base0+".avi", base0), switched to the "-<pid>" suffixed pair exactly when
base0+".mp4" already exists. -/
def chooseFile (base0 : String) (pid : Int) (fileExists : String → Bool) :
    String × String :=
  if fileExists (base0 ++ ".mp4") then
    (base0 ++ "-" ++ toString pid ++ ".avi", base0 ++ "-" ++ toString pid)
  else
    (base0 ++ ".avi", base0)

/-- What one startRecording invocation produced: its return value, the
shared state afterwards, whether the watcher goroutine was spawned, the
file handed to the recorder, and the base written to the cache file. -/
structure StartResult where
  result : Except String Unit
  st : State
  watcherSpawned : Bool
  chosenFile : String
  cacheWritten : Option String

/-- startRecording (src/unnamed/part_000, src/internal/commands/recording.go):
choose the file, write the cache, launch the recorder, set the state and
spawn the watcher. -/
def startRecording (env : StartEnv) (s : State) : StartResult :=
  let fb := chooseFile env.base0 env.pid env.fileExists
  let file := fb.1
  let base := fb.2
  match env.cacheWrite with
  | .error e =>
    { result := .error ("failed to write cache file: " ++ e)
      st := s
      watcherSpawned := false
      chosenFile := file
      cacheWritten := none }
  | .ok _ =>
    match env.recorderStart with
    | .error e =>
      { result := .error ("failed to start recording: " ++ e)
        st := s
        watcherSpawned := false
        chosenFile := file
        cacheWritten := some base }
    | .ok cmdPid =>
      { result := .ok ()
        st := s.SetRecording true file cmdPid env.now
        watcherSpawned := true
        chosenFile := file
        cacheWritten := some base }

/-- The body of the watcher goroutine spawned on a successful start: it
runs after cmd.Wait() returns and clears the recording state. -/
def watcherBody (s : State) : State := s.SetRecording false "" 0 0

/-- One recording's lifecycle after a successful start: the shared state,
whether the external recorder process is still running, and whether the
watcher goroutine has already run its body. -/
structure WatchSys where
  st : State
  procAlive : Bool
  watcherDone : Bool

/-- Lifecycle events: the external process exits (for any reason — stop
signal, crash or external kill), or the watcher's cmd.Wait() returns and
its body runs. -/
inductive WatchEvent where
  | procExit
  | watcherFire
  deriving Repr, DecidableEq

/-- procExit is possible while the process runs; watcherFire requires the
process to have exited (cmd.Wait blocks until then) and the watcher to be
pending still. -/
def eventEnabled (c : WatchSys) : WatchEvent → Bool
  | .procExit => c.procAlive
  | .watcherFire => !c.procAlive && !c.watcherDone

def stepEvent (c : WatchSys) : WatchEvent → WatchSys
  | .procExit => { c with procAlive := false }
  | .watcherFire => { c with st := watcherBody c.st, watcherDone := true }

def runEvents (c : WatchSys) : List WatchEvent → WatchSys
  | [] => c
  | e :: es => runEvents (stepEvent c e) es

/-- A valid run takes only enabled events. -/
def validRun (c : WatchSys) : List WatchEvent → Bool
  | [] => true
  | e :: es => eventEnabled c e && validRun (stepEvent c e) es

/-- A maximal run is a valid run after which no event is enabled; it models
"the process eventually exits and the watcher eventually runs". -/
def maximalRun (c : WatchSys) (tr : List WatchEvent) : Bool :=
  validRun c tr &&
    !eventEnabled (runEvents c tr) .procExit &&
    !eventEnabled (runEvents c tr) .watcherFire

/-- Environment of one StopRecording invocation: os.ReadFile on the cache
file, os.Stat, and the ffmpeg conversion. The killall and the half-second
wait touch only the external process. -/
structure StopEnv where
  cacheRead : Except String String
  fileExists : String → Bool
  ffmpeg : Except String Unit

/-- StopRecording (src/unnamed/part_000, src/internal/commands/recording.go). -/
def StopRecording (env : StopEnv) (s : State) : Except String Unit × State :=
  match env.cacheRead with
  | .error e => (.error ("failed to read cache file: " ++ e), s)
  | .ok data =>
    let base := data
    let aviFile := base ++ ".avi"
    if !env.fileExists aviFile then
      (.error ("recording file not found: " ++ aviFile), s)
    else
      match env.ffmpeg with
      | .error e => (.error ("failed to convert video: " ++ e), s)
      | .ok _ => (.ok (), s.SetRecording false "" 0 0)

/-- Environment of one PauseRecording invocation: os.FindProcess and the
SIGUSR1 delivery. -/
structure PauseEnv where
  findProcess : Except String Unit
  sendSignal : Except String Unit

/-- PauseRecording (src/unnamed/part_000, src/internal/commands/recording.go). -/
def PauseRecording (env : PauseEnv) (s : State) : Except String Unit × State :=
  let pid := s.GetRecordingPID
  if pid == 0 then
    (.error "no recording in progress", s)
  else
    match env.findProcess with
    | .error e => (.error ("failed to find recording process: " ++ e), s)
    | .ok _ =>
      match env.sendSignal with
      | .error e => (.error ("failed to pause recording: " ++ e), s)
      | .ok _ =>
        let currentState := s.GetState
        let newPausedState := !currentState.Paused
        (.ok (), s.SetPaused newPausedState)

/-- strings.Contains: substring containment, on character lists. -/
def strContains (s pat : String) : Bool :=
  decide (pat.toList <:+: s.toList)

/-- Environment of one OBS ToggleRecording invocation: the three possible
obs-cli calls (status, start, stop). -/
structure OBSEnv where
  statusResult : Except String String
  startResult : Except String String
  stopResult : Except String String

/-- What one ToggleRecording invocation produced: the return value, the
shared state afterwards, and the obs-cli invocations issued, in order. -/
structure OBSResult where
  result : Except String Unit
  st : State
  cmds : List (List String)

/-- OBSHandler.ToggleRecording (src/internal/commands/obs.go,
src/unnamed/part_001). -/
def ToggleRecording (env : OBSEnv) (s : State) : OBSResult :=
  match env.statusResult with
  | .error e =>
    { result := .error ("failed to get OBS recording status: " ++ e)
      st := s
      cmds := [["recording", "status"]] }
  | .ok status =>
    if strContains status "false" || !strContains status "Recording: true" then
      match env.startResult with
      | .error e =>
        { result := .error ("failed to start OBS recording: " ++ e)
          st := s
          cmds := [["recording", "status"], ["recording", "start"]] }
      | .ok _ =>
        { result := .ok ()
          st := s.SetOBSState true false
          cmds := [["recording", "status"], ["recording", "start"]] }
    else
      match env.stopResult with
      | .error e =>
        { result := .error ("failed to stop OBS recording: " ++ e)
          st := s
          cmds := [["recording", "status"], ["recording", "stop"]] }
      | .ok _ =>
        { result := .ok ()
          st := s.SetOBSState false false
          cmds := [["recording", "status"], ["recording", "stop"]] }

end SwayEasyshot

namespace SwayScreenshot

open SwayShot

/-- state.Icons of the sway-screenshot variant (src/internal/state/state.go):
five glyphs, no countdown icon. -/
structure Icons where
  Idle : String
  Recording : String
  Paused : String
  ObsRecording : String
  ObsPaused : String
  deriving Repr, DecidableEq

/-- state.DefaultIcons of the sway-screenshot variant. -/
def DefaultIcons : Icons :=
  { Idle := "󰕧"
    Recording := "󰑊"
    Paused := "󰏤"
    ObsRecording := "󰑊"
    ObsPaused := "󰏤" }

/-- state.State of the sway-screenshot variant: no countdown, no start
time. -/
structure State where
  recording : Bool
  paused : Bool
  recordingFile : String
  recordingPID : Int
  obsRecording : Bool
  obsPaused : Bool
  icons : Icons
  deriving Repr, DecidableEq

/-- state.NewState. -/
def NewState : State :=
  { recording := false
    paused := false
    recordingFile := ""
    recordingPID := 0
    obsRecording := false
    obsPaused := false
    icons := DefaultIcons }

/-- State.SetRecording (sway-screenshot variant): exactly the three
recording fields. -/
def State.SetRecording (s : State) (recording : Bool) (file : String)
    (pid : Int) : State :=
  { s with recording := recording, recordingFile := file, recordingPID := pid }

/-- State.SetOBSState. -/
def State.SetOBSState (s : State) (recording paused : Bool) : State :=
  { s with obsRecording := recording, obsPaused := paused }

/-- State.GetRecordingPID. -/
def State.GetRecordingPID (s : State) : Int := s.recordingPID

/-- State.SetPaused. -/
def State.SetPaused (s : State) (paused : Bool) : State :=
  { s with paused := paused }

/-- State.GetState. -/
def State.GetState (s : State) : ProtocolState :=
  { Recording := s.recording
    Paused := s.paused
    RecordingFile := s.recordingFile
    OBSRecording := s.obsRecording
    OBSPaused := s.obsPaused }

/-- State.SetIcons. -/
def State.SetIcons (s : State) (icons : Icons) : State :=
  { s with icons := icons }

/-- State.GetWaybarStatus (sway-screenshot variant): local recording
(paused | active) > OBS (paused | active) > idle. -/
def State.GetWaybarStatus (s : State) : WaybarStatus :=
  if s.recording then
    if s.paused then
      { Text := s.icons.Paused
        Tooltip := "Recording paused"
        Class := "paused"
        Alt := "paused" }
    else
      { Text := s.icons.Recording
        Tooltip := "Recording in progress"
        Class := "recording"
        Alt := "recording" }
  else if s.obsRecording then
    if s.obsPaused then
      { Text := s.icons.ObsPaused
        Tooltip := "OBS recording paused"
        Class := "paused"
        Alt := "paused" }
    else
      { Text := s.icons.ObsRecording
        Tooltip := "OBS recording in progress"
        Class := "recording"
        Alt := "recording" }
  else
    { Text := s.icons.Idle
      Tooltip := "Ready for screenshot/recording"
      Class := "idle"
      Alt := "idle" }

/-- A decoded JSON value, as encoding/json produces for interface{}
(numbers are modelled as integers; no claim involves a fraction). -/
inductive JVal where
  | null
  | bool (b : Bool)
  | num (n : Int)
  | str (s : String)
  | arr (xs : List JVal)
  | obj (fields : List (String × JVal))
  deriving Repr

/-- protocol.Request: options is the decoded map, nil when absent. -/
structure Request where
  command : String
  action : String
  options : Option (List (String × JVal))
  deriving Repr

/-- protocol.Response. -/
structure Response where
  success : Bool
  message : String
  state : Option ProtocolState
  deriving Repr

/-- Go map indexing on the decoded options object. -/
def lookupOpt (opts : List (String × JVal)) (k : String) : Option JVal :=
  (opts.find? (fun p => p.1 == k)).map Prod.snd

/-- The dispatcher's extraction of options["delay"].(float64), default 0. -/
def extractDelay (options : Option (List (String × JVal))) : Int :=
  match options with
  | none => 0
  | some opts =>
    match lookupOpt opts "delay" with
    | some (.num n) => n
    | _ => 0

/-- The dispatcher's extraction of options["use_current_screen"].(bool),
default false. -/
def extractUseCurrentScreen (options : Option (List (String × JVal))) : Bool :=
  match options with
  | none => false
  | some opts =>
    match lookupOpt opts "use_current_screen" with
    | some (.bool b) => b
    | _ => false

/-- The toggle-record extraction of options["start_action"].(string),
default "movie-selection", also used when the value is the empty string. -/
def extractStartAction (options : Option (List (String × JVal))) : String :=
  match options with
  | none => "movie-selection"
  | some opts =>
    match lookupOpt opts "start_action" with
    | some (.str sa) => if sa == "" then "movie-selection" else sa
    | _ => "movie-selection"

/-- String assertion on one field of the decoded icons map. -/
def iconField (m : List (String × JVal)) (k : String) : Option String :=
  match lookupOpt m k with
  | some (.str v) => some v
  | _ => none

/-- The waybar-status branch's icon merge: start from DefaultIcons and
overwrite each field whose key is present in the map with a string value. -/
def mergeIcons (m : List (String × JVal)) : Icons :=
  { Idle := (iconField m "Idle").getD DefaultIcons.Idle
    Recording := (iconField m "Recording").getD DefaultIcons.Recording
    Paused := (iconField m "Paused").getD DefaultIcons.Paused
    ObsRecording := (iconField m "ObsRecording").getD DefaultIcons.ObsRecording
    ObsPaused := (iconField m "ObsPaused").getD DefaultIcons.ObsPaused }

/-- Modelled from the spec: pkg/protocol and encoding/json are outside
src/; json.Marshal of the WaybarStatus payload is modelled as the JSON
object text with keys text, tooltip, class, alt. -/
def marshalWaybarStatus (w : WaybarStatus) : String :=
  "\x7b\"text\":\"" ++ w.Text ++ "\",\"tooltip\":\"" ++ w.Tooltip ++
    "\",\"class\":\"" ++ w.Class ++ "\",\"alt\":\"" ++ w.Alt ++ "\"\x7d"

/-- The handler layer the dispatcher routes into. Screenshot handlers of
this variant do not touch the shared state; recording and OBS handlers
read and mutate it. Each field stands for the corresponding method's
observable effect in one invocation. -/
structure HandlerEnv where
  currentWindowClipboard : Int → Except String Unit
  currentWindowFile : Int → Except String Unit
  currentScreenClipboard : Int → Bool → Except String Unit
  selectionFile : Int → Except String Unit
  selectionEdit : Int → Except String Unit
  selectionClipboard : Int → Except String Unit
  movieSelection : Int → State → Except String Unit × State
  movieScreen : Int → Bool → State → Except String Unit × State
  movieCurrentWindow : Int → State → Except String Unit × State
  stopRecording : State → Except String Unit × State
  pauseRecording : State → Except String Unit × State
  toggleRecord : String → Int → Bool → State → Except String Unit × State
  obsToggleRecording : State → Except String Unit × State
  obsTogglePause : State → Except String Unit × State

/-- The switch of executeCommand, minus the waybar-status and default
cases: selects the handler call for the action and returns its error value
and the shared state afterwards; none when no case matches. -/
def dispatchHandler (env : HandlerEnv) (req : Request) (s : State) :
    Option (Except String Unit × State) :=
  let delay := extractDelay req.options
  let useCurrentScreen := extractUseCurrentScreen req.options
  match req.action with
  | "current-window-clipboard" => some (env.currentWindowClipboard delay, s)
  | "current-window-file" => some (env.currentWindowFile delay, s)
  | "current-screen-clipboard" =>
    some (env.currentScreenClipboard delay useCurrentScreen, s)
  | "selection-file" => some (env.selectionFile delay, s)
  | "selection-edit" => some (env.selectionEdit delay, s)
  | "selection-clipboard" => some (env.selectionClipboard delay, s)
  | "movie-selection" => some (env.movieSelection delay s)
  | "movie-screen" => some (env.movieScreen delay useCurrentScreen s)
  | "movie-current-window" => some (env.movieCurrentWindow delay s)
  | "stop-recording" => some (env.stopRecording s)
  | "pause-recording" => some (env.pauseRecording s)
  | "toggle-record" =>
    some (env.toggleRecord (extractStartAction req.options) delay
      useCurrentScreen s)
  | "obs-toggle-recording" => some (env.obsToggleRecording s)
  | "obs-toggle-pause" => some (env.obsTogglePause s)
  | _ => none

/-- The action names of the dispatcher's switch, the status query apart. -/
def handlerActions : List String :=
  ["current-window-clipboard", "current-window-file",
   "current-screen-clipboard", "selection-file", "selection-edit",
   "selection-clipboard", "movie-selection", "movie-screen",
   "movie-current-window", "stop-recording", "pause-recording",
   "toggle-record", "obs-toggle-recording", "obs-toggle-pause"]

/-- Daemon.executeCommand (the daemon source embedded at
src/internal/config/config.go): the status query applies any icon override
and returns the JSON-encoded WaybarStatus; an unmatched action yields the
unknown-action failure without touching the state; every other case runs
its handler and wraps the outcome, both success and error carrying the
state snapshot. -/
def executeCommand (env : HandlerEnv) (req : Request) (s : State) :
    Response × State :=
  if req.action == "waybar-status" then
    let s1 :=
      match req.options with
      | some opts =>
        match lookupOpt opts "icons" with
        | some (.obj iconsMap) => s.SetIcons (mergeIcons iconsMap)
        | _ => s
      | none => s
    let status := s1.GetWaybarStatus
    ({ success := true
       message := marshalWaybarStatus status
       state := some s1.GetState }, s1)
  else
    match dispatchHandler env req s with
    | some (r, s2) =>
      match r with
      | .error e =>
        ({ success := false, message := e, state := some s2.GetState }, s2)
      | .ok _ =>
        ({ success := true
           message := "Command executed successfully"
           state := some s2.GetState }, s2)
    | none =>
      ({ success := false
         message := "Unknown action: " ++ req.action
         state := none }, s)

/-- Modelled from the spec: the client JSON-encodes one Request onto the
socket and the daemon decodes it (pkg/protocol and encoding/json are
outside src/); the wire value is modelled as a JSON tree with the three
request keys, a nil options map encoding as null. -/
def encodeRequest (req : Request) : JVal :=
  .obj [("command", .str req.command), ("action", .str req.action),
        ("options",
          match req.options with
          | none => .null
          | some opts => .obj opts)]

/-- Modelled from the spec: the daemon-side decode of one Request from the
wire value. -/
def decodeRequest (j : JVal) : Option Request :=
  match j with
  | .obj [("command", .str c), ("action", .str a), ("options", o)] =>
    match o with
    | .null => some { command := c, action := a, options := none }
    | .obj opts => some { command := c, action := a, options := some opts }
    | _ => none
  | _ => none

/-- A handler layer whose calls all succeed without touching the state;
used to instantiate dispatcher statements on concrete inputs. -/
def noopHandlers : HandlerEnv :=
  { currentWindowClipboard := fun _ => .ok ()
    currentWindowFile := fun _ => .ok ()
    currentScreenClipboard := fun _ _ => .ok ()
    selectionFile := fun _ => .ok ()
    selectionEdit := fun _ => .ok ()
    selectionClipboard := fun _ => .ok ()
    movieSelection := fun _ s => (.ok (), s)
    movieScreen := fun _ _ s => (.ok (), s)
    movieCurrentWindow := fun _ s => (.ok (), s)
    stopRecording := fun s => (.ok (), s)
    pauseRecording := fun s => (.ok (), s)
    toggleRecord := fun _ _ _ s => (.ok (), s)
    obsToggleRecording := fun s => (.ok (), s)
    obsTogglePause := fun s => (.ok (), s) }

end SwayScreenshot

namespace SwayEasyshot

theorem getWaybarStatus_eq_spec (s : State) (now : Nat) :
    s.GetWaybarStatus now = specWaybarStatus s now := by
  unfold State.GetWaybarStatus specWaybarStatus highestActiveCond statusPriority
  by_cases hc : s.countdownRemaining > 0 <;>
    cases hr : s.recording <;> cases ho : s.obsRecording <;>
      simp [List.find?, condActive, hc, hr, ho, condStatus]

/-- C1: after any sequence of SetRecording/SetOBSState/SetCountdown calls,
GetWaybarStatus shows the highest-priority active condition, in the order
countdown > local recording (paused or active) > OBS recording (paused or
active) > idle; in particular, when recording and obsRecording are both
true, the local-recording payload is shown, not the OBS one. -/
theorem c1_waybar_priority (ops : List StateOp) (now : Nat) :
    ((runOps ops NewState).GetWaybarStatus now
        = specWaybarStatus (runOps ops NewState) now)
    ∧ (∀ s : State, s.recording = true → s.obsRecording = true →
        s.countdownRemaining ≤ 0 →
        s.GetWaybarStatus now = condStatus s now .localRec) := by
  refine ⟨getWaybarStatus_eq_spec _ now, fun s hr ho hc => ?_⟩
  have hc' : ¬s.countdownRemaining > 0 := by omega
  unfold State.GetWaybarStatus condStatus
  simp [hc', hr]

theorem c1_waybar_priority_witness :
    (runOps [StateOp.setRecording true "r.avi" 7 100,
        StateOp.setOBSState true false] NewState).GetWaybarStatus 130
      = condStatus (runOps [StateOp.setRecording true "r.avi" 7 100,
          StateOp.setOBSState true false] NewState) 130 .localRec :=
  (c1_waybar_priority [StateOp.setRecording true "r.avi" 7 100,
      StateOp.setOBSState true false] 130).2 _ rfl rfl (by decide)

/-- C3: StopRecording with an unreadable cache file returns an error and
leaves the state — in particular the recording field — unchanged: no
SetRecording call happens on that path. -/
theorem c3_stop_unreadable_cache (env : StopEnv) (s : State) (e : String)
    (h : env.cacheRead = .error e) :
    (StopRecording env s).1 = .error ("failed to read cache file: " ++ e)
    ∧ (StopRecording env s).2 = s
    ∧ (StopRecording env s).2.recording = s.recording := by
  simp [StopRecording, h]

theorem c3_stop_unreadable_cache_witness :
    (StopRecording ⟨.error "io", fun _ => true, .ok ()⟩ NewState).2
      = NewState :=
  (c3_stop_unreadable_cache ⟨.error "io", fun _ => true, .ok ()⟩ NewState
    "io" rfl).2.1

/-- C4: PauseRecording with no tracked PID (recordingPID = 0) returns an
error and leaves the state — in particular the paused field — unchanged. -/
theorem c4_pause_no_pid (env : PauseEnv) (s : State)
    (h : s.recordingPID = 0) :
    (PauseRecording env s).1 = .error "no recording in progress"
    ∧ (PauseRecording env s).2 = s
    ∧ (PauseRecording env s).2.paused = s.paused := by
  simp [PauseRecording, State.GetRecordingPID, h]

theorem c4_pause_no_pid_witness :
    (PauseRecording ⟨.ok (), .ok ()⟩ NewState).2 = NewState :=
  (c4_pause_no_pid ⟨.ok (), .ok ()⟩ NewState rfl).2.1

theorem maximalRun_shape (s0 : State) (tr : List WatchEvent)
    (h : maximalRun ⟨s0, true, false⟩ tr = true) :
    tr = [.procExit, .watcherFire] := by
  match tr with
  | [] => simp [maximalRun, validRun, runEvents, eventEnabled] at h
  | [e] =>
    cases e <;>
      simp [maximalRun, validRun, runEvents, eventEnabled, stepEvent] at h
  | e1 :: e2 :: es =>
    cases e1 with
    | procExit =>
      cases e2 with
      | procExit =>
        simp [maximalRun, validRun, runEvents, eventEnabled, stepEvent] at h
      | watcherFire =>
        cases es with
        | nil => rfl
        | cons e3 es2 =>
          cases e3 <;>
            simp [maximalRun, validRun, runEvents, eventEnabled, stepEvent] at h
    | watcherFire =>
      simp [maximalRun, validRun, runEvents, eventEnabled, stepEvent] at h

/-- C2: a successful startRecording spawns the watcher, and in every
maximal lifecycle run — the process exits for any reason, then the watcher
goroutine runs, with no other call — the final state has recording=false,
recordingFile="" and recordingPID=0. -/
theorem c2_watcher_clears_state (env : StartEnv) (s : State)
    (tr : List WatchEvent)
    (hok : (startRecording env s).result = .ok ())
    (hmax : maximalRun ⟨(startRecording env s).st, true, false⟩ tr = true) :
    (startRecording env s).watcherSpawned = true
    ∧ (runEvents ⟨(startRecording env s).st, true, false⟩ tr).st.recording
        = false
    ∧ (runEvents ⟨(startRecording env s).st, true, false⟩ tr).st.recordingFile
        = ""
    ∧ (runEvents ⟨(startRecording env s).st, true, false⟩ tr).st.recordingPID
        = 0 := by
  have htr := maximalRun_shape _ tr hmax
  subst htr
  have hspawn : (startRecording env s).watcherSpawned = true := by
    cases hcw : env.cacheWrite with
    | error e => simp [startRecording, hcw] at hok
    | ok u =>
      cases hrs : env.recorderStart with
      | error e => simp [startRecording, hcw, hrs] at hok
      | ok p => simp [startRecording, hcw, hrs]
  refine ⟨hspawn, ?_, ?_, ?_⟩ <;>
    simp [runEvents, stepEvent, watcherBody, State.SetRecording]

theorem c2_watcher_clears_state_witness :
    (runEvents
        ⟨(startRecording ⟨"b", 1, fun _ => false, .ok (), .ok 5, 10⟩
            NewState).st, true, false⟩
        [.procExit, .watcherFire]).st.recording = false :=
  (c2_watcher_clears_state ⟨"b", 1, fun _ => false, .ok (), .ok 5, 10⟩
    NewState [.procExit, .watcherFire] rfl rfl).2.1

/-- C5 counterexample: a prior file rec.avi shares the computed base "rec",
yet startRecording (whose existence check covers only rec.mp4) picks the
unsuffixed path rec.avi, which is exactly the existing file — so the
chosen path is neither pid-suffixed nor new. -/
theorem c5_counterexample :
    ((fun p => p == "rec.avi") ("rec" ++ ".avi") = true)
    ∧ (startRecording
        ⟨"rec", 42, fun p => p == "rec.avi", .ok (), .ok 7, 0⟩
        NewState).result = .ok ()
    ∧ (startRecording
        ⟨"rec", 42, fun p => p == "rec.avi", .ok (), .ok 7, 0⟩
        NewState).chosenFile = "rec" ++ ".avi"
    ∧ (fun p => p == "rec.avi")
        ((startRecording
          ⟨"rec", 42, fun p => p == "rec.avi", .ok (), .ok 7, 0⟩
          NewState).chosenFile) = true :=
  ⟨rfl, rfl, rfl, rfl⟩

/-- C5 amended: the existence check of startRecording covers only the
converted file base0+".mp4"; when that file exists the chosen output path
is pid-suffixed and differs from both the unsuffixed avi path and the
checked mp4 path (other collisions, such as a leftover base0+".avi", are
not checked and not prevented). -/
theorem c5_amended (base0 : String) (pid : Int) (fe : String → Bool)
    (h : fe (base0 ++ ".mp4") = true) :
    chooseFile base0 pid fe
      = (base0 ++ "-" ++ toString pid ++ ".avi",
         base0 ++ "-" ++ toString pid)
    ∧ (chooseFile base0 pid fe).1 ≠ base0 ++ ".avi"
    ∧ (chooseFile base0 pid fe).1 ≠ base0 ++ ".mp4" := by
  have hch : chooseFile base0 pid fe
      = (base0 ++ "-" ++ toString pid ++ ".avi",
         base0 ++ "-" ++ toString pid) := by
    simp [chooseFile, h]
  have hAvi : (".avi" : String).length = 4 := rfl
  have hMp4 : (".mp4" : String).length = 4 := rfl
  have hDash : ("-" : String).length = 1 := rfl
  refine ⟨hch, ?_, ?_⟩ <;> rw [hch] <;> intro hcontra <;>
    have hl := congrArg String.length hcontra <;>
    simp only [String.length_append, hAvi, hMp4, hDash] at hl <;> omega

theorem c5_amended_witness :
    chooseFile "rec" 42 (fun p => p == "rec.mp4")
      = ("rec-42.avi", "rec-42") :=
  ((c5_amended "rec" 42 (fun p => p == "rec.mp4") rfl).1).trans rfl

/-- C9: whenever the obs-cli status string contains "false" or lacks
"Recording: true", ToggleRecording takes the start branch — it issues the
start command and, when that succeeds, sets obsRecording=true and
obsPaused=false; a status reporting both "Recording: true" and
"Paused: false" contains "false", so the start branch is taken even though
OBS reports an active recording. -/
theorem c9_obs_start_branch (env : OBSEnv) (s : State) (status : String)
    (hst : env.statusResult = .ok status)
    (hcond : (strContains status "false"
        || !strContains status "Recording: true") = true) :
    (ToggleRecording env s).cmds
      = [["recording", "status"], ["recording", "start"]]
    ∧ (∀ u, env.startResult = .ok u →
        (ToggleRecording env s).st = s.SetOBSState true false
        ∧ (ToggleRecording env s).st.obsRecording = true
        ∧ (ToggleRecording env s).st.obsPaused = false)
    ∧ strContains "Recording: true\nPaused: false" "false" = true := by
  refine ⟨?_, fun u hu => ?_, by decide⟩
  · cases hsr : env.startResult <;>
      simp [ToggleRecording, hst, hcond, hsr]
  · simp [ToggleRecording, hst, hcond, hu, State.SetOBSState]

theorem c9_obs_start_branch_witness :
    (ToggleRecording
        ⟨.ok "Recording: true\nPaused: false", .ok "", .ok ""⟩
        NewState).st.obsRecording = true :=
  ((c9_obs_start_branch
      ⟨.ok "Recording: true\nPaused: false", .ok "", .ok ""⟩
      NewState "Recording: true\nPaused: false" rfl (by decide)).2.1
    "" rfl).2.1

end SwayEasyshot

namespace SwayScreenshot

/-- C6 counterexample: a status request overriding only Idle to "A" stores
Idle="A"; the next status request overriding only Recording resets the
absent Idle field to the baked-in default instead of keeping "A" — fields
absent in the override do not keep their prior value. -/
theorem c6_counterexample :
    ((executeCommand noopHandlers
        ⟨"execute", "waybar-status",
          some [("icons", .obj [("Idle", .str "A")])]⟩ NewState).2).icons.Idle
      = "A"
    ∧ ((executeCommand noopHandlers
        ⟨"execute", "waybar-status",
          some [("icons", .obj [("Recording", .str "X")])]⟩
        ((executeCommand noopHandlers
          ⟨"execute", "waybar-status",
            some [("icons", .obj [("Idle", .str "A")])]⟩
          NewState).2)).2).icons.Idle
      = DefaultIcons.Idle
    ∧ DefaultIcons.Idle ≠ "A" :=
  ⟨rfl, rfl, by decide⟩

/-- C6 amended: a status request with a partial icon override replaces the
stored icons by the override merged into the baked-in defaults — present
fields overwrite, absent fields are reset to their defaults, independent
of the previously stored icons; starting from defaults, overriding only
Recording to "X" makes a subsequent status while (unpaused) recording show
"X" with unchanged defaults for every other glyph. -/
theorem c6_amended (env envB : HandlerEnv) (c cB : String)
    (m : List (String × JVal)) (s sB : State) :
    ((executeCommand env
        ⟨c, "waybar-status", some [("icons", .obj m)]⟩ s).2).icons
      = mergeIcons m
    ∧ ((executeCommand env
        ⟨c, "waybar-status", some [("icons", .obj m)]⟩ s).2).icons
      = ((executeCommand envB
          ⟨cB, "waybar-status", some [("icons", .obj m)]⟩ sB).2).icons
    ∧ (∀ v, iconField m "Recording" = some v →
        (mergeIcons m).Recording = v)
    ∧ (iconField m "Recording" = none →
        (mergeIcons m).Recording = DefaultIcons.Recording)
    ∧ (((((executeCommand env
          ⟨c, "waybar-status",
            some [("icons", .obj [("Recording", .str "X")])]⟩
          s).2).SetRecording true "f" 1).SetPaused false).GetWaybarStatus.Text
        = "X"
      ∧ ((executeCommand env
          ⟨c, "waybar-status",
            some [("icons", .obj [("Recording", .str "X")])]⟩
          s).2).icons.Idle = DefaultIcons.Idle
      ∧ ((executeCommand env
          ⟨c, "waybar-status",
            some [("icons", .obj [("Recording", .str "X")])]⟩
          s).2).icons.Paused = DefaultIcons.Paused
      ∧ ((executeCommand env
          ⟨c, "waybar-status",
            some [("icons", .obj [("Recording", .str "X")])]⟩
          s).2).icons.ObsRecording = DefaultIcons.ObsRecording
      ∧ ((executeCommand env
          ⟨c, "waybar-status",
            some [("icons", .obj [("Recording", .str "X")])]⟩
          s).2).icons.ObsPaused = DefaultIcons.ObsPaused) := by
  refine ⟨?_, ?_, fun v hv => ?_, fun hn => ?_, ?_, ?_, ?_, ?_, ?_⟩
  · simp [executeCommand, lookupOpt, State.SetIcons]
  · simp [executeCommand, lookupOpt, State.SetIcons]
  · simp [mergeIcons, hv]
  · simp [mergeIcons, hn]
  · simp [executeCommand, lookupOpt, State.SetIcons, State.SetRecording,
      State.SetPaused, State.GetWaybarStatus, mergeIcons, iconField]
  · simp [executeCommand, lookupOpt, State.SetIcons, mergeIcons, iconField]
  · simp [executeCommand, lookupOpt, State.SetIcons, mergeIcons, iconField]
  · simp [executeCommand, lookupOpt, State.SetIcons, mergeIcons, iconField]
  · simp [executeCommand, lookupOpt, State.SetIcons, mergeIcons, iconField]

theorem c6_amended_witness :
    (mergeIcons [("Recording", JVal.str "X")]).Recording = "X" :=
  (c6_amended noopHandlers noopHandlers "execute" "execute"
      [("Recording", JVal.str "X")] NewState NewState).2.2.1 "X" rfl

/-- C7: for every action other than the status query, a handler error
becomes a failure Response carrying the handler's error text and the
current state snapshot (never null), and executeCommand still returns
normally. -/
theorem c7_handler_error_response (env : HandlerEnv) (req : Request)
    (s s2 : State) (e : String)
    (hne : req.action ≠ "waybar-status")
    (hd : dispatchHandler env req s = some (.error e, s2)) :
    executeCommand env req s
      = ({ success := false, message := e, state := some s2.GetState }, s2)
    ∧ (executeCommand env req s).1.state ≠ none := by
  have hb : (req.action == "waybar-status") = false := by
    simpa using hne
  constructor
  · simp [executeCommand, hb, hd]
  · simp [executeCommand, hb, hd]

theorem c7_handler_error_response_witness :
    executeCommand
      { noopHandlers with stopRecording := fun s => (.error "boom", s) }
      ⟨"execute", "stop-recording", none⟩ NewState
      = ({ success := false, message := "boom",
           state := some NewState.GetState }, NewState) :=
  (c7_handler_error_response
    { noopHandlers with stopRecording := fun s => (.error "boom", s) }
    ⟨"execute", "stop-recording", none⟩ NewState NewState "boom"
    (by decide) rfl).1

theorem dispatchHandler_not_listed (env : HandlerEnv) (req : Request)
    (s : State) (h : req.action ∉ handlerActions) :
    dispatchHandler env req s = none := by
  unfold dispatchHandler
  split <;> simp_all [handlerActions]

/-- C8: encoding a Request, decoding it, and dispatching it round-trips;
for every action name outside the dispatcher's fixed set the Response is
the failure {success:false, message:"Unknown action: <name>"} and the
shared state is left untouched — at action "bogus" the message is
"Unknown action: bogus". -/
theorem c8_unknown_action (req : Request) (env : HandlerEnv) (s : State) :
    decodeRequest (encodeRequest req) = some req
    ∧ (req.action ∉ handlerActions → req.action ≠ "waybar-status" →
        executeCommand env req s
          = ({ success := false
               message := "Unknown action: " ++ req.action
               state := none }, s)) := by
  constructor
  · obtain ⟨c, a, o⟩ := req
    cases o <;> simp [encodeRequest, decodeRequest]
  · intro hna hnw
    have hb : (req.action == "waybar-status") = false := by
      simpa using hnw
    simp [executeCommand, hb, dispatchHandler_not_listed env req s hna]

theorem c8_unknown_action_witness :
    executeCommand noopHandlers ⟨"execute", "bogus", none⟩ NewState
      = ({ success := false, message := "Unknown action: bogus",
           state := none }, NewState) :=
  (c8_unknown_action ⟨"execute", "bogus", none⟩ noopHandlers NewState).2
    (by decide) (by decide)

end SwayScreenshot

/-- C10: SetRecording modifies only recording, recordingFile and
recordingPID (plus recordingStartTime in the variant that tracks it),
leaving every other field — in particular paused — unchanged, in both
variants; after SetRecording(false, "", 0) a previously set paused flag
stays true while recording is false, and the waybar status nevertheless
shows idle (when OBS is not recording) because the paused branch is read
only under the recording condition. -/
theorem c10_setRecording_frame (s : SwayScreenshot.State)
    (t : SwayEasyshot.State) (r : Bool) (f : String) (p : Int) (now : Nat) :
    ((s.SetRecording r f p).recording = r
      ∧ (s.SetRecording r f p).recordingFile = f
      ∧ (s.SetRecording r f p).recordingPID = p
      ∧ (s.SetRecording r f p).paused = s.paused
      ∧ (s.SetRecording r f p).obsRecording = s.obsRecording
      ∧ (s.SetRecording r f p).obsPaused = s.obsPaused
      ∧ (s.SetRecording r f p).icons = s.icons)
    ∧ ((t.SetRecording r f p now).recording = r
      ∧ (t.SetRecording r f p now).recordingFile = f
      ∧ (t.SetRecording r f p now).recordingPID = p
      ∧ (t.SetRecording r f p now).paused = t.paused
      ∧ (t.SetRecording r f p now).obsRecording = t.obsRecording
      ∧ (t.SetRecording r f p now).obsPaused = t.obsPaused
      ∧ (t.SetRecording r f p now).countdownRemaining = t.countdownRemaining
      ∧ (t.SetRecording r f p now).icons = t.icons)
    ∧ (s.paused = true →
        ((s.SetRecording false "" 0).paused = true
          ∧ (s.SetRecording false "" 0).recording = false
          ∧ (s.obsRecording = false →
              (s.SetRecording false "" 0).GetWaybarStatus.Class = "idle"))) := by
  refine ⟨⟨rfl, rfl, rfl, rfl, rfl, rfl, rfl⟩,
    ⟨rfl, rfl, rfl, rfl, rfl, rfl, rfl, rfl⟩, fun hp => ⟨hp, rfl, fun ho => ?_⟩⟩
  simp [SwayScreenshot.State.SetRecording, SwayScreenshot.State.GetWaybarStatus,
    ho]

theorem c10_setRecording_frame_witness :
    (({ SwayScreenshot.NewState with
        paused := true }.SetRecording false "" 0).GetWaybarStatus.Class
      = "idle") :=
  ((c10_setRecording_frame { SwayScreenshot.NewState with paused := true }
      SwayEasyshot.NewState false "" 0 0).2.2 rfl).2.2 rfl
